import Mathlib

/-!
Shallow embedding of the `php-to-python-migration` scaffold.

Embedded files:
- `src/main.py` (application bootstrap, CORS config, health check, port selection),
- `src/controllers/user_controller.py` (five route declarations and handlers),
- `src/services/user_service.py` (the `UserService` class with five methods).

Python functions that either return a value or raise `HTTPException` are
embedded as `Except HTTPException α`; a Python function body that falls
through without `return` (a bare `pass`) evaluates to `None`, embedded as
`Except.ok none`. Route declarations are embedded as `Route` records
carrying method, path and the success status code the decorator declares
(FastAPI's default is 200 when no `status_code` argument is given).
-/

/-- Modelled from the spec: the `User` schema lives in `models/user.py`,
which is not part of this repository; the spec records no field, type or
constraint for it (`Referenced but not defined in this repository`), so it
is represented by an abstract payload. -/
structure User where
  payload : String
  deriving DecidableEq

/-- Modelled from the spec: `UserCreate` is referenced but not defined in
this repository; abstract payload stand-in. -/
structure UserCreate where
  payload : String
  deriving DecidableEq

/-- Modelled from the spec: `UserUpdate` is referenced but not defined in
this repository; abstract payload stand-in. -/
structure UserUpdate where
  payload : String
  deriving DecidableEq

/-- FastAPI `HTTPException` as raised in the controller: a status code and
a detail string. -/
structure HTTPException where
  status_code : Nat
  detail : String
  deriving DecidableEq

/-- A route declaration: HTTP method, full path, and the success status
code declared on the decorator (200 when the decorator gives none). -/
structure Route where
  method : String
  path : String
  success_status : Nat
  deriving DecidableEq

namespace UserService

/-- `UserService.get_all` (user_service.py lines 8-11): body is
`return []`. -/
def get_all : Except HTTPException (List User) := Except.ok []

/-- `UserService.get_by_id` (user_service.py lines 13-16): body is
`return None`. -/
def get_by_id (user_id : String) : Except HTTPException (Option User) :=
  Except.ok none

/-- `UserService.create` (user_service.py lines 18-21): annotated
`-> User`, but the body is a bare `pass`, so the call returns `None`;
the returned value is therefore `Option User`, here `none`. -/
def create (user_data : UserCreate) : Except HTTPException (Option User) :=
  Except.ok none

/-- `UserService.update` (user_service.py lines 23-26): body is
`return None`. -/
def update (user_id : String) (user_data : UserUpdate) :
    Except HTTPException (Option User) :=
  Except.ok none

/-- `UserService.delete` (user_service.py lines 28-31): body is
`return False`. -/
def delete (user_id : String) : Except HTTPException Bool :=
  Except.ok false

end UserService

/-- The interface a caller sees on a `UserService` object: one field per
method. Quantifying over this type expresses "for any implementation or
state of the service". -/
structure UserServiceImpl where
  get_all : Except HTTPException (List User)
  get_by_id : String → Except HTTPException (Option User)
  create : UserCreate → Except HTTPException (Option User)
  update : String → UserUpdate → Except HTTPException (Option User)
  delete : String → Except HTTPException Bool

/-- The repository's own `UserService` packaged as an implementation of
the interface. -/
def userServiceObject : UserServiceImpl :=
  { get_all := UserService.get_all
    get_by_id := UserService.get_by_id
    create := UserService.create
    update := UserService.update
    delete := UserService.delete }

/-- `get_all_users` (user_controller.py lines 8-12): body is `return []`.
The `svc` argument models whatever service implementation the application
holds; the source body never mentions or calls a service, so the
definition ignores it. -/
def get_all_users (svc : UserServiceImpl) : Except HTTPException (List User) :=
  Except.ok []

/-- `get_user` (user_controller.py lines 15-19): body is
`raise HTTPException(status_code=404, detail="User not found")`,
unconditionally, for every `user_id`. -/
def get_user (svc : UserServiceImpl) (user_id : String) :
    Except HTTPException (Option User) :=
  Except.error { status_code := 404, detail := "User not found" }

/-- `create_user` (user_controller.py lines 22-26): body is a bare `pass`,
so the handler returns `None`. -/
def create_user (svc : UserServiceImpl) (user_data : UserCreate) :
    Except HTTPException (Option User) :=
  Except.ok none

/-- `update_user` (user_controller.py lines 29-33): body is a bare `pass`,
so the handler returns `None`. -/
def update_user (svc : UserServiceImpl) (user_id : String)
    (user_data : UserUpdate) : Except HTTPException (Option User) :=
  Except.ok none

/-- `delete_user` (user_controller.py lines 36-40): body is a bare `pass`,
so the handler returns `None`. -/
def delete_user (svc : UserServiceImpl) (user_id : String) :
    Except HTTPException (Option User) :=
  Except.ok none

/-- A handler response satisfies the declared `response_model=User`
exactly when it is a normal return carrying an actual `User` value;
an exception, or a `None` body, does not satisfy it (FastAPI would raise
a response-validation error at runtime). -/
def satisfiesUserResponseModel : Except HTTPException (Option User) → Bool
  | Except.ok (some _) => true
  | _ => false

namespace user_controller

/-- `APIRouter(prefix="/api/users", tags=["users"])` (user_controller.py
line 5): every route path of the router is this base followed by the
route-local path. -/
def routerBase : String := "/api/users"

/-- `@router.get("/")`: no explicit status, so success status 200. -/
def route_get_all : Route :=
  { method := "GET", path := routerBase ++ "/", success_status := 200 }

/-- `@router.get("/{user_id}")`: success status 200. -/
def route_get_one : Route :=
  { method := "GET", path := routerBase ++ "/{user_id}", success_status := 200 }

/-- `@router.post("/", status_code=status.HTTP_201_CREATED)`. -/
def route_create : Route :=
  { method := "POST", path := routerBase ++ "/", success_status := 201 }

/-- `@router.put("/{user_id}")`: success status 200. -/
def route_update : Route :=
  { method := "PUT", path := routerBase ++ "/{user_id}", success_status := 200 }

/-- `@router.delete("/{user_id}", status_code=status.HTTP_204_NO_CONTENT)`. -/
def route_delete : Route :=
  { method := "DELETE", path := routerBase ++ "/{user_id}", success_status := 204 }

/-- The five routes declared on the user router, in source order. -/
def routes : List Route :=
  [route_get_all, route_get_one, route_create, route_update, route_delete]

end user_controller

/-- `health_check` (main.py lines 24-26): returns the literal dict
`{"status": "ok", "version": "1.0.0"}`, embedded as an ordered key-value
list. The function takes no argument and reads no state, so it is a
closed constant. -/
def health_check : List (String × String) :=
  [("status", "ok"), ("version", "1.0.0")]

/-- `@app.get("/health")` (main.py line 24): no explicit status, so
success status 200. -/
def healthRoute : Route :=
  { method := "GET", path := "/health", success_status := 200 }

/-- The routes mounted on the FastAPI app by `main.py`: only the health
check. The `include_router` call for the user router (lines 30-31) is
commented out, so no user route is registered. -/
def appRoutes : List Route := [healthRoute]

/-- The keyword arguments of `app.add_middleware(CORSMiddleware, ...)`
(main.py lines 15-21). -/
structure CORSConfig where
  allow_origins : List String
  allow_credentials : Bool
  allow_methods : List String
  allow_headers : List String
  deriving DecidableEq

/-- The CORS configuration installed in `main.py`: wildcard origins,
methods and headers, credentials allowed. -/
def corsMiddlewareConfig : CORSConfig :=
  { allow_origins := ["*"]
    allow_credentials := true
    allow_methods := ["*"]
    allow_headers := ["*"] }

/-- CORSMiddleware semantics for origins: an origin is allowed when the
configured list contains the wildcard entry or the origin itself. -/
def allowsOrigin (c : CORSConfig) (origin : String) : Bool :=
  c.allow_origins.contains ("*") || c.allow_origins.contains origin

/-- CORSMiddleware semantics for methods: a method is allowed when the
configured list contains the wildcard entry or the method itself. -/
def allowsMethod (c : CORSConfig) (verb : String) : Bool :=
  c.allow_methods.contains ("*") || c.allow_methods.contains verb

/-- CORSMiddleware semantics for headers: a header is allowed when the
configured list contains the wildcard entry or the header itself. -/
def allowsHeader (c : CORSConfig) (header : String) : Bool :=
  c.allow_headers.contains ("*") || c.allow_headers.contains header

/-- A nonempty run of ASCII digits read as a natural number; anything
else is a parse failure. -/
def parseDigits : List Char → Option Nat
  | [] => none
  | cs =>
    if cs.all Char.isDigit then
      some (cs.foldl (fun a c => 10 * a + (c.toNat - 48)) 0)
    else
      none

/-- Python `int(s)` on a string: strip surrounding whitespace, then an
optional sign followed by a nonempty digit run; any other shape raises
`ValueError`, modelled as `none`. (CPython additionally accepts
underscore separators and non-ASCII digits; no claim depends on those
inputs.) -/
def pyInt (s : String) : Option Int :=
  match s.trim.toList with
  | ('-') :: rest => (parseDigits rest).map (fun n => -(n : Int))
  | ('+') :: rest => (parseDigits rest).map (fun n => (n : Int))
  | cs => (parseDigits cs).map (fun n => (n : Int))

/-- The listening port computed in `main.py` line 35:
`int(os.getenv("PORT", 8000))`, over an environment modelled as an
association list. When `PORT` is unset, `os.getenv` returns its default
argument `8000` (an int, on which `int` is the identity); when `PORT` is
set, its string value is parsed by `int`, where a `ValueError` is `none`. -/
def port (env : List (String × String)) : Option Int :=
  match env.lookup ("PORT") with
  | some s => pyInt s
  | none => some 8000

/-- C1: for every `user_id`, the `get_user` handler raises
`HTTPException` with status 404 and detail "User not found", and
`UserService.get_by_id` returns `None`; neither operation ever produces a
user, for any service implementation. -/
theorem c1_get_user_always_404 (svc : UserServiceImpl) (uid : String) :
    get_user svc uid =
      Except.error { status_code := 404, detail := "User not found" } ∧
    UserService.get_by_id uid = Except.ok none ∧
    satisfiesUserResponseModel (get_user svc uid) = false ∧
    satisfiesUserResponseModel (UserService.get_by_id uid) = false :=
  ⟨rfl, rfl, rfl, rfl⟩

/-- C2: every call of `health_check` returns exactly the object with keys
`status` and `version` and values "ok" and "1.0.0", nothing else; the
handler is a closed constant (it takes no input and reads no state), and
its route declares success status 200. -/
theorem c2_health_check_constant :
    health_check = [("status", "ok"), ("version", "1.0.0")] ∧
    health_check.map Prod.fst = ["status", "version"] ∧
    healthRoute.success_status = 200 :=
  ⟨rfl, rfl, rfl⟩

/-- C3: the bootstrap never registers the user router: the mounted routes
contain the `/health` endpoint, contain no path under `/api/users`, and
contain none of the five routes the controller declares. -/
theorem c3_user_router_unregistered :
    appRoutes.contains healthRoute = true ∧
    appRoutes.all (fun r => !(String.isPrefixOf ("/api/users") r.path)) = true ∧
    user_controller.routes.all (fun r => !(appRoutes.contains r)) = true := by
  decide

/-- C4: for every input and service implementation, `create_user`,
`update_user` and `delete_user` fall through without a return and yield
`None`; the `None` body does not satisfy the declared
`response_model=User` of POST and PUT, so exercising them surfaces a
response-validation error rather than a designed response. -/
theorem c4_write_handlers_yield_none (svc : UserServiceImpl)
    (d : UserCreate) (uid : String) (du : UserUpdate) :
    create_user svc d = Except.ok none ∧
    update_user svc uid du = Except.ok none ∧
    delete_user svc uid = Except.ok none ∧
    satisfiesUserResponseModel (create_user svc d) = false ∧
    satisfiesUserResponseModel (update_user svc uid du) = false :=
  ⟨rfl, rfl, rfl, rfl, rfl⟩

/-- C5: both list operations always return the empty collection:
`get_all_users` returns `[]` (on a route whose success status is 200) for
any service implementation, and `UserService.get_all` returns `[]`. -/
theorem c5_list_operations_empty (svc : UserServiceImpl) :
    get_all_users svc = Except.ok ([] : List User) ∧
    UserService.get_all = Except.ok ([] : List User) ∧
    user_controller.route_get_all.success_status = 200 :=
  ⟨rfl, rfl, rfl⟩

/-- C6: for every input, the service write operations have no effect and
return a default falsy/empty value: `create` returns `None` (falling
through without a value), `update` returns `None`, and `delete` returns
`False`. -/
theorem c6_service_writes_default (uid : String) (d : UserCreate)
    (du : UserUpdate) :
    UserService.create d = Except.ok none ∧
    UserService.update uid du = Except.ok none ∧
    UserService.delete uid = Except.ok false :=
  ⟨rfl, rfl, rfl⟩

/-- C7: every controller handler's response is independent of the
service: for any two service implementations, each of the five handlers
produces the same result on the same request. -/
theorem c7_handlers_ignore_service (s1 s2 : UserServiceImpl) :
    get_all_users s1 = get_all_users s2 ∧
    (∀ uid : String, get_user s1 uid = get_user s2 uid) ∧
    (∀ d : UserCreate, create_user s1 d = create_user s2 d) ∧
    (∀ (uid : String) (du : UserUpdate),
      update_user s1 uid du = update_user s2 uid du) ∧
    (∀ uid : String, delete_user s1 uid = delete_user s2 uid) :=
  ⟨rfl, fun _ => rfl, fun _ => rfl, fun _ _ => rfl, fun _ => rfl⟩

/-- C8: the installed CORS configuration is fully open: every origin,
every method and every header is allowed, and credentials are allowed. -/
theorem c8_cors_fully_open (origin verb header : String) :
    allowsOrigin corsMiddlewareConfig origin = true ∧
    allowsMethod corsMiddlewareConfig verb = true ∧
    allowsHeader corsMiddlewareConfig header = true ∧
    corsMiddlewareConfig.allow_credentials = true :=
  ⟨rfl, rfl, rfl, rfl⟩

/-- C9: the listening port is the `PORT` environment variable interpreted
as an integer; when `PORT` is unset the port is 8000; and no environment
entry other than `PORT` affects the chosen port. -/
theorem c9_port_selection :
    (∀ env : List (String × String),
      env.lookup ("PORT") = none → port env = some 8000) ∧
    (∀ (env : List (String × String)) (s : String),
      env.lookup ("PORT") = some s → port env = pyInt s) ∧
    (∀ e1 e2 : List (String × String),
      e1.lookup ("PORT") = e2.lookup ("PORT") → port e1 = port e2) := by
  refine ⟨fun env h => ?_, fun env s h => ?_, fun e1 e2 h => ?_⟩ <;>
    simp only [port, h]

/-- C9 witness: an empty environment gives port 8000; an environment
setting `PORT` gives the parsed value; an environment differing only in
other variables gives the same port as the empty one. -/
theorem c9_port_selection_witness :
    port [] = some 8000 ∧
    port [(("PORT"), ("9001"))] = pyInt ("9001") ∧
    port [(("HOST"), ("a"))] = port [] :=
  ⟨c9_port_selection.1 [] rfl,
   c9_port_selection.2.1 [(("PORT"), ("9001"))] ("9001") rfl,
   c9_port_selection.2.2 [(("HOST"), ("a"))] [] (by decide)⟩

/-- C10: no `UserService` method ever raises: for every input, each of
the five methods returns normally (`Except.ok`) with its constant
placeholder value, so the service layer has no error path. -/
theorem c10_service_never_raises (uid : String) (d : UserCreate)
    (du : UserUpdate) :
    UserService.get_all = Except.ok ([] : List User) ∧
    UserService.get_by_id uid = Except.ok none ∧
    UserService.create d = Except.ok none ∧
    UserService.update uid du = Except.ok none ∧
    UserService.delete uid = Except.ok false :=
  ⟨rfl, rfl, rfl, rfl, rfl⟩
